import Mathlib

/-!
# Verification of the Geo-temporal Weather Forecast Platform backend

Shallow embedding of `src/main.py` and `src/schemas.py` (FastAPI + pydantic +
a MongoDB-style document store), together with proofs about the claims of the
specification.

Modelling conventions:
* A stored document is an association list `Doc = List (String × Value)` with
  Python-`dict` semantics (unique keys; `setKey` updates in place or appends).
* BSON `ObjectId` values are modelled by their canonical 24-character
  lowercase hexadecimal string.
* `database.py` is imported by `src/main.py` but its source is not part of the
  repository snapshot; its operations (`create_document`, `get_documents`) are
  modelled from the specification (see the doc comments marked
  `Modelled from the spec:`).
* Library behaviour that the code relies on is embedded faithfully:
  FastAPI `Query(default, ge=, le=)` validates (422 on violation, it does not
  clamp); pydantic validates enum/range/length constraints declared in
  `schemas.py`; `fastapi.HTTPException` is a subclass of `Exception`, so a
  blanket `except Exception` catches it.
* Python floats are modelled by real numbers (`ℝ`) for the meteogram formula
  and by rationals (`ℚ`) for data fields; `round(x, 2)` is modelled by
  `round2` below (ties and binary-float representation are abstracted; no
  claim depends on them).
-/

/-- A JSON/BSON-style value as stored in the document store.
`oid s` is a BSON ObjectId carrying its canonical hex string `s`. -/
inductive Value where
  | null : Value
  | bool (b : Bool) : Value
  | num (q : ℚ) : Value
  | str (s : String) : Value
  | oid (s : String) : Value
  | arr (vs : List Value) : Value

/-- A document: a Python `dict` with string keys, in insertion order. -/
abbrev Doc := List (String × Value)

namespace Value

/-- Python truthiness of a value (`if model:` etc.). -/
def truthy : Value → Bool
  | .null => false
  | .bool b => b
  | .num q => q ≠ 0
  | .str s => s ≠ ""
  | .oid _ => true
  | .arr vs => !vs.isEmpty

/-- Python `str(...)` of a value, as used by the code.  In `src/main.py` it is
only ever applied to ObjectId values (`str(d.pop("_id"))`), where it returns
the canonical hex string. -/
def vstr : Value → String
  | .null => "None"
  | .bool b => cond b "True" "False"
  | .num q => toString q
  | .str s => s
  | .oid s => s
  | .arr _ => "[...]"

end Value

/-- First value bound to key `k` in document `d` (Python `d.get(k)` /
`d[k]`; keys are unique in a `dict`). -/
def getField (d : Doc) (k : String) : Option Value :=
  match d with
  | [] => none
  | (k', v) :: rest => if k' = k then some v else getField rest k

/-- Remove every binding of key `k` (Python `d.pop(k)` on a `dict`, where the
key occurs at most once). -/
def eraseKey (d : Doc) (k : String) : Doc :=
  match d with
  | [] => []
  | (k', v) :: rest => if k' = k then eraseKey rest k else (k', v) :: eraseKey rest k

/-- Python `d[k] = v` on a `dict`: replace the value in place if the key is
present, else append the binding at the end. -/
def setKey (d : Doc) (k : String) (v : Value) : Doc :=
  match d with
  | [] => [(k, v)]
  | (k', v') :: rest => if k' = k then (k', v) :: rest else (k', v') :: setKey rest k v

@[simp] theorem getField_nil (k : String) : getField [] k = none := rfl

theorem getField_cons (k k' : String) (v : Value) (d : Doc) :
    getField ((k', v) :: d) k = if k' = k then some v else getField d k := rfl

theorem getField_eraseKey (d : Doc) (k k' : String) :
    getField (eraseKey d k) k' = if k' = k then none else getField d k' := by
  induction d with
  | nil => simp [eraseKey]
  | cons p rest ih =>
    obtain ⟨k₀, v₀⟩ := p
    by_cases h₀ : k₀ = k
    · subst h₀
      rw [show eraseKey ((k₀, v₀) :: rest) k₀ = eraseKey rest k₀ from by
            simp [eraseKey],
          ih, getField_cons]
      by_cases h₁ : k' = k₀
      · simp [h₁]
      · have h₂ : ¬(k₀ = k') := fun h => h₁ h.symm
        simp [h₁, h₂]
    · rw [show eraseKey ((k₀, v₀) :: rest) k = (k₀, v₀) :: eraseKey rest k from by
            simp [eraseKey, h₀],
          getField_cons, getField_cons, ih]
      by_cases h₁ : k₀ = k'
      · subst h₁
        simp [h₀]
      · simp [h₁]

theorem getField_setKey_self (d : Doc) (k : String) (v : Value) :
    getField (setKey d k v) k = some v := by
  induction d with
  | nil => simp [setKey, getField_cons]
  | cons p rest ih =>
    obtain ⟨k₀, v₀⟩ := p
    by_cases h₀ : k₀ = k <;> simp [setKey, getField_cons, h₀, ih]

theorem getField_setKey_ne (d : Doc) (k k' : String) (v : Value) (h : k ≠ k') :
    getField (setKey d k v) k' = getField d k' := by
  induction d with
  | nil => simp [setKey, getField_cons, h]
  | cons p rest ih =>
    obtain ⟨k₀, v₀⟩ := p
    by_cases h₀ : k₀ = k
    · subst h₀; simp [setKey, getField_cons, h, ih]
    · simp [setKey, getField_cons, h₀, ih]

theorem eraseKey_keeps (d : Doc) (k : String) (h : getField d k = none) :
    eraseKey d k = d := by
  induction d with
  | nil => rfl
  | cons p rest ih =>
    obtain ⟨k₀, v₀⟩ := p
    rw [getField_cons] at h
    by_cases h₀ : k₀ = k
    · simp [h₀] at h
    · have h' : getField rest k = none := by simpa [h₀] using h
      have hrest := ih h'
      simp [eraseKey, h₀, hrest]

mutual

/-- MongoDB exact-match equality between a stored value and a filter value.
The filters built in `src/main.py` only ever contain `str`, `bool` and `oid`
values. -/
def Value.beq : Value → Value → Bool
  | .null, .null => true
  | .bool a, .bool b => a == b
  | .num a, .num b => a == b
  | .str a, .str b => a == b
  | .oid a, .oid b => a == b
  | .arr vs, .arr ws => Value.beqList vs ws
  | _, _ => false

def Value.beqList : List Value → List Value → Bool
  | [], [] => true
  | v :: vs, w :: ws => Value.beq v w && Value.beqList vs ws
  | _, _ => false

end

theorem Value.beq_bool_iff (v : Value) (b : Bool) :
    Value.beq v (.bool b) = true ↔ v = .bool b := by
  cases v <;> simp [Value.beq]

theorem Value.beq_oid_iff (v : Value) (s : String) :
    Value.beq v (.oid s) = true ↔ v = .oid s := by
  cases v <;> simp [Value.beq]

/-- A document matches a MongoDB filter iff every filter entry is matched
exactly by the corresponding field of the document. -/
def matchesFilter (filt : Doc) (d : Doc) : Bool :=
  filt.all fun p =>
    match getField d p.1 with
    | some w => Value.beq w p.2
    | none => false

@[simp] theorem matchesFilter_nil (d : Doc) : matchesFilter [] d = true := rfl

/-- Modelled from the spec: `database.py` is imported by `src/main.py` but is
missing from the repository snapshot.  §4.2: `query(collectionName, filter,
limit)` returns the ordered sequence of stored records whose fields exactly
match the filter mapping, with `limit` bounding the result count.  `docs` is
the named collection's contents in insertion order. -/
def get_documents (docs : List Doc) (filt : Doc) (limit : ℕ) : List Doc :=
  (docs.filter (fun d => matchesFilter filt d)).take limit

/-- Modelled from the spec: `database.py` is missing from the repository
snapshot.  §4.2: `insert(collectionName, record)` serialises the validated
record, writes it to the collection and returns the newly assigned unique
identifier as a string.  The store-native identifier is kept in the record
under `"_id"` (MongoDB semantics); `oid` is the identifier the store assigns
to this insert. -/
def create_document (docs : List Doc) (record : Doc) (oid : String) :
    String × List Doc :=
  (oid, docs ++ [("_id", Value.oid oid) :: record])

def isHexChar (c : Char) : Bool :=
  c.isDigit || ('a' ≤ c && c ≤ 'f') || ('A' ≤ c && c ≤ 'F')

/-- A string bson accepts as an ObjectId: exactly 24 hexadecimal digits. -/
def isValidObjectIdString (s : String) : Bool :=
  s.length == 24 && s.toList.all isHexChar

/-- bson `ObjectId(s)`: accepts a 24-character hex string, raises
`bson.errors.InvalidId` otherwise (modelled as `none`).  bson normalises the
hex digits to lowercase; identifiers in this development are taken in that
canonical lowercase form already, so the normalisation is the identity and
is omitted. -/
def parseObjectId (s : String) : Option String :=
  if isValidObjectIdString s then some s else none

/-- The identifier-renaming step of the list endpoints in `src/main.py`:
`if d.get("_id"): d["id"] = str(d.pop("_id"))`. -/
def renameId (d : Doc) : Doc :=
  match getField d "_id" with
  | some v => if v.truthy then setKey (eraseKey d "_id") "id" (.str v.vstr) else d
  | none => d

/-- FastAPI `Query(default, ge=lo, le=hi)` semantics for an optional integer
query parameter: a missing parameter takes the default; a supplied value
outside `[lo, hi]` fails request validation and the request is rejected with
a 422 response (FastAPI validates, it does not clamp). -/
def fastapiIntParam (dflt lo hi : ℤ) : Option ℤ → Except String ℤ
  | none => .ok dflt
  | some v => if lo ≤ v ∧ v ≤ hi then .ok v else .error "value out of range"

/-- An HTTP error response: status code and detail string. -/
abbrev ApiError := ℕ × String

/-- The filter `list_forecasts` builds: a parameter that is `None` or `""`
is falsy in Python (`if model:` / `if variable:`) and is left out of the
exact-match filter. -/
def forecastFilter (model var : Option String) : Doc :=
  (match model with
   | some s => if s ≠ "" then [("model", Value.str s)] else []
   | none => []) ++
  (match var with
   | some s => if s ≠ "" then [("variable", Value.str s)] else []
   | none => [])

/-- `GET /api/forecasts` (`list_forecasts` in `src/main.py`).  `model` and
`var` (source name `variable`, a Lean keyword) are optional query
parameters. -/
def list_forecasts (docs : List Doc) (model var : Option String)
    (limit : Option ℤ) : Except ApiError (List Doc) :=
  match fastapiIntParam 20 1 200 limit with
  | .error e => .error (422, e)
  | .ok lim =>
    .ok ((get_documents docs (forecastFilter model var) lim.toNat).map renameId)

/-- The filter `list_alerts` builds: `if active is not None:` puts the flag
in the exact-match filter. -/
def alertFilter (active : Option Bool) : Doc :=
  match active with
  | some b => [("active", Value.bool b)]
  | none => []

/-- `GET /api/alerts` (`list_alerts` in `src/main.py`).  `active` is an
optional boolean query parameter. -/
def list_alerts (docs : List Doc) (active : Option Bool)
    (limit : Option ℤ) : Except ApiError (List Doc) :=
  match fastapiIntParam 50 1 500 limit with
  | .error e => .error (422, e)
  | .ok lim =>
    .ok ((get_documents docs (alertFilter active) lim.toNat).map renameId)

/-- `GET /api/forecasts/{forecast_id}` (`get_forecast` in `src/main.py`).
The whole body runs inside `try: ... except Exception as e: raise
HTTPException(status_code=500, detail=str(e))`, and `fastapi.HTTPException`
is itself a subclass of `Exception`, so the `HTTPException(404, "Forecast
not found")` raised on a miss is caught by the blanket handler and re-raised
as a 500 — this is the behaviour of the code as written.  A malformed id
makes `ObjectId(forecast_id)` raise `bson.errors.InvalidId`, likewise
surfaced as a 500. -/
def get_forecast (docs : List Doc) (forecast_id : String) :
    Except ApiError Doc :=
  match parseObjectId forecast_id with
  | none => .error (500, "InvalidId: not a valid ObjectId")
  | some oid =>
    match get_documents docs [("_id", Value.oid oid)] 1 with
    | [] => .error (500, "404: Forecast not found")
    | d :: _ =>
      match getField d "_id" with
      | some v => .ok (setKey (eraseKey d "_id") "id" (.str v.vstr))
      | none => .error (500, "KeyError: _id")

/-- A `ForecastGridPoint` from `src/schemas.py`: lat, lon and a time-ordered
list of scalar values. -/
structure GridPoint where
  lat : ℚ
  lon : ℚ
  values : List ℚ

/-- A typed `Forecast` request body (`src/schemas.py`), before the value
constraints are checked.  The source field `variable` is a Lean keyword and
is called `var` here. -/
structure ForecastPayload where
  model : String
  init_time : String
  lead_hours : ℤ
  var : String
  bbox : List ℚ
  grid_res_km : ℚ
  times : List String
  grid : List GridPoint

/-- The pydantic value constraints declared on `Forecast` in
`src/schemas.py`: `model` and `variable` restricted to their `Literal`
enumerations, `lead_hours` in `[1, 240]` (`ge=1, le=240`), and `bbox` of
length exactly 4 (`min_items=4, max_items=4`). -/
def validateForecast (p : ForecastPayload) : Bool :=
  ["WRF", "GFS", "ICON", "ECMWF"].contains p.model &&
  decide (1 ≤ p.lead_hours) && decide (p.lead_hours ≤ 240) &&
  ["t2m", "u10", "v10", "precip", "mslp"].contains p.var &&
  p.bbox.length == 4

/-- Serialisation of a grid point for storage.  The nested sub-document is
encoded positionally as `(lat, lon, values)`; no claim inspects the inside of
a stored grid point, only whole-field equality. -/
def serializeGridPoint (g : GridPoint) : Value :=
  .arr [.num g.lat, .num g.lon, .arr (g.values.map .num)]

/-- Serialisation of a validated `Forecast` into a stored document, field for
field in declaration order (pydantic `dict()`). -/
def serializeForecast (p : ForecastPayload) : Doc :=
  [("model", .str p.model),
   ("init_time", .str p.init_time),
   ("lead_hours", .num p.lead_hours),
   ("variable", .str p.var),
   ("bbox", .arr (p.bbox.map .num)),
   ("grid_res_km", .num p.grid_res_km),
   ("times", .arr (p.times.map .str)),
   ("grid", .arr (p.grid.map serializeGridPoint))]

/-- `POST /api/forecasts` (`create_forecast` in `src/main.py`) together with
the pydantic validation FastAPI performs on the request body: an invalid
payload is rejected with a 422 before the handler runs, so the store is
untouched; a valid payload is inserted via `create_document` and the new
identifier returned in `{"id": ...}`.  `oid` is the identifier the store
assigns if the insert happens.  Returns the response and the forecast
collection after the request. -/
def post_forecast (docs : List Doc) (p : ForecastPayload) (oid : String) :
    Except ApiError String × List Doc :=
  if validateForecast p then
    let r := create_document docs (serializeForecast p) oid
    (.ok r.1, r.2)
  else
    (.error (422, "validation error"), docs)

/-- The `variable` enumeration of `MeteogramRequest`
(`Literal["t2m", "precip", "mslp"]` in `src/schemas.py`). -/
inductive MetVar where
  | t2m
  | precip
  | mslp
  deriving DecidableEq

/-- A validated `MeteogramRequest` body (`src/schemas.py`); the source field
`variable` is called `var` here. -/
structure MeteogramRequest where
  lat : ℚ
  lon : ℚ
  var : MetVar
  forecast_id : Option String

/-- Python `round(x, 2)`: round to two decimal places.  Mathlib's integer
`round` stands in for Python's; the tie-breaking convention and the
binary-float representation are abstracted, and no claim depends on a tie. -/
noncomputable def round2 (x : ℝ) : ℝ :=
  (round (x * 100) : ℤ) / 100

/-- Microseconds per hour; timestamps are modelled as microseconds since an
hour-aligned epoch (midnight), so `.replace(minute=0, second=0,
microsecond=0)` is truncation to the enclosing hour boundary. -/
def usPerHour : ℕ := 3600000000

/-- The value the meteogram loop appends at index `i`
(`base = 15 + 10*math.sin(i/24*2*math.pi)`, `noise = 1.5*math.sin(i*0.7)`,
`series.append(round(base + noise, 2))` in `src/main.py`). -/
noncomputable def meteogramValue (i : ℕ) : ℝ :=
  round2 ((15 + 10 * Real.sin ((i : ℝ) / 24 * 2 * Real.pi)) +
    1.5 * Real.sin ((i : ℝ) * 0.7))

/-- The response of `POST /api/meteogram`. -/
structure MeteogramResponse where
  lat : ℚ
  lon : ℚ
  var : MetVar
  times : List String
  values : List ℝ
  units : String

/-- `POST /api/meteogram` (`generate_meteogram` in `src/main.py`).  `iso`
models `datetime.isoformat` on naive UTC datetimes (a function of the
instant only); `now` is `datetime.utcnow()` in microseconds since the
hour-aligned epoch.  `times` enumerates `range(0, 49, 1)`; the series loop
runs over `enumerate(times)` and uses only the index, so `values` is the
same enumeration mapped through `meteogramValue`. -/
noncomputable def generateMeteogram (iso : ℕ → String) (now : ℕ)
    (req : MeteogramRequest) : MeteogramResponse :=
  let start := now - now % usPerHour
  { lat := req.lat
    lon := req.lon
    var := req.var
    times := (List.range 49).map (fun i => iso (start + i * usPerHour) ++ "Z")
    values := (List.range 49).map meteogramValue
    units := if req.var = MetVar.t2m then "°C" else "units" }

theorem getD_map_range {α : Type} (n : ℕ) (f : ℕ → α) (i : ℕ) (dflt : α)
    (h : i < n) : ((List.range n).map f).getD i dflt = f i := by
  simp [List.getD, h]

theorem getField_append (d₁ d₂ : Doc) (k : String) :
    getField (d₁ ++ d₂) k =
      match getField d₁ k with
      | some v => some v
      | none => getField d₂ k := by
  induction d₁ with
  | nil => simp
  | cons p rest ih =>
    obtain ⟨k₀, v₀⟩ := p
    by_cases h₀ : k₀ = k <;> simp [getField_cons, h₀, ih]

theorem setKey_eq_append (d : Doc) (k : String) (v : Value)
    (h : getField d k = none) : setKey d k v = d ++ [(k, v)] := by
  induction d with
  | nil => rfl
  | cons p rest ih =>
    obtain ⟨k₀, v₀⟩ := p
    rw [getField_cons] at h
    by_cases h₀ : k₀ = k
    · simp [h₀] at h
    · have h' : getField rest k = none := by simpa [h₀] using h
      simp [setKey, h₀, ih h']

theorem mem_get_documents {docs : List Doc} {filt : Doc} {lim : ℕ} {d : Doc}
    (h : d ∈ get_documents docs filt lim) :
    d ∈ docs ∧ matchesFilter filt d = true := by
  unfold get_documents at h
  have h1 : d ∈ docs.filter (fun d => matchesFilter filt d) :=
    List.take_subset _ _ h
  exact ⟨(List.mem_filter.mp h1).1, (List.mem_filter.mp h1).2⟩

theorem renameId_getField_other (d : Doc) (k : String)
    (h1 : k ≠ "_id") (h2 : k ≠ "id") :
    getField (renameId d) k = getField d k := by
  unfold renameId
  cases hv : getField d "_id" with
  | none => rfl
  | some v =>
    by_cases ht : v.truthy
    · simp only [ht, if_true]
      rw [getField_setKey_ne _ _ _ _ (Ne.symm h2), getField_eraseKey]
      simp [h1]
    · simp [ht]

theorem renameId_no_id (d : Doc) (h : getField d "_id" = none) :
    renameId d = d := by
  unfold renameId
  rw [h]

/-- C10: the identifier-renaming step of the list endpoints changes only the
identifier fields: a truthy `"_id"` is removed and an `"id"` field holding
its string form is added; an absent or falsy `"_id"` leaves the document
unmodified; every other field keeps its value in all cases. -/
theorem c10_renameId_frame (d : Doc) :
    (∀ v, getField d "_id" = some v → v.truthy = true →
      getField (renameId d) "_id" = none ∧
      getField (renameId d) "id" = some (.str v.vstr) ∧
      ∀ k, k ≠ "_id" → k ≠ "id" → getField (renameId d) k = getField d k) ∧
    (getField d "_id" = none → renameId d = d) ∧
    (∀ v, getField d "_id" = some v → v.truthy = false → renameId d = d) := by
  refine ⟨fun v hv ht => ⟨?_, ?_, ?_⟩, fun h => renameId_no_id d h, fun v hv ht => ?_⟩
  · unfold renameId
    rw [hv]
    simp only [ht, if_true]
    rw [getField_setKey_ne _ _ _ _ (by decide), getField_eraseKey]
    simp
  · unfold renameId
    rw [hv]
    simp only [ht, if_true]
    exact getField_setKey_self _ _ _
  · exact fun k h1 h2 => renameId_getField_other d k h1 h2
  · unfold renameId
    rw [hv]
    simp [ht]

theorem c10_witness :
    (getField (renameId [("_id", Value.oid "ab12cd34ef56ab12cd34ef56"),
        ("name", Value.str "x")]) "_id" = none ∧
      getField (renameId [("_id", Value.oid "ab12cd34ef56ab12cd34ef56"),
        ("name", Value.str "x")]) "id" =
        some (Value.str "ab12cd34ef56ab12cd34ef56") ∧
      getField (renameId [("_id", Value.oid "ab12cd34ef56ab12cd34ef56"),
        ("name", Value.str "x")]) "name" =
        getField [("_id", Value.oid "ab12cd34ef56ab12cd34ef56"),
          ("name", Value.str "x")] "name") ∧
    renameId [("name", Value.str "x")] = [("name", Value.str "x")] ∧
    renameId [("_id", Value.str ""), ("name", Value.str "x")] =
      [("_id", Value.str ""), ("name", Value.str "x")] := by
  refine ⟨?_, ?_, ?_⟩
  · obtain ⟨h1, h2, h3⟩ :=
      (c10_renameId_frame [("_id", Value.oid "ab12cd34ef56ab12cd34ef56"),
        ("name", Value.str "x")]).1 (Value.oid "ab12cd34ef56ab12cd34ef56") rfl rfl
    exact ⟨h1, h2, h3 "name" (by decide) (by decide)⟩
  · exact (c10_renameId_frame [("name", Value.str "x")]).2.1 rfl
  · exact (c10_renameId_frame [("_id", Value.str ""), ("name", Value.str "x")]).2.2
      (Value.str "") rfl rfl

/-- C9: for `GET /api/forecasts`, a `model` or `variable` query parameter
supplied as the empty string is treated exactly like an absent parameter
(Python falsiness in `if model:` / `if variable:` leaves it out of the
filter), so results are not filtered on that field. -/
theorem c9_empty_string_like_absent (docs : List Doc) (m v : Option String)
    (lim : Option ℤ) :
    list_forecasts docs (some "") v lim = list_forecasts docs none v lim ∧
    list_forecasts docs m (some "") lim = list_forecasts docs m none lim := by
  cases h : fastapiIntParam 20 1 200 lim with
  | error e => constructor <;> simp [list_forecasts, h]
  | ok l => constructor <;> simp [list_forecasts, forecastFilter, h]

/-- C2 as stated is false: FastAPI `Query(ge=, le=)` rejects an out-of-range
`limit` with a validation error instead of clamping it, so
`GET /api/forecasts?limit=500` does not behave like `limit=200` — at the
concrete input (empty store, `limit=500`) the two responses differ. -/
theorem c2_counterexample :
    list_forecasts [] none none (some 500) ≠
      list_forecasts [] none none (some 200) := by
  have h500 : fastapiIntParam 20 1 200 (some 500) =
      .error "value out of range" := by
    simp [fastapiIntParam]
  have h200 : fastapiIntParam 20 1 200 (some 200) = .ok 200 := by
    norm_num [fastapiIntParam]
  simp [list_forecasts, h500, h200]

/-- C2 amended: an out-of-range `limit` is rejected with a 422 validation
error rather than clamped; an in-range `limit` is accepted; an omitted
`limit` behaves exactly like the default (20 for forecasts, 50 for
alerts). -/
theorem c2_limit_validation (docs : List Doc) (m v : Option String)
    (a : Option Bool) (x : ℤ) :
    (x < 1 ∨ 200 < x →
      list_forecasts docs m v (some x) = .error (422, "value out of range")) ∧
    (1 ≤ x → x ≤ 200 → ∃ res, list_forecasts docs m v (some x) = .ok res) ∧
    list_forecasts docs m v none = list_forecasts docs m v (some 20) ∧
    (x < 1 ∨ 500 < x →
      list_alerts docs a (some x) = .error (422, "value out of range")) ∧
    (1 ≤ x → x ≤ 500 → ∃ res, list_alerts docs a (some x) = .ok res) ∧
    list_alerts docs a none = list_alerts docs a (some 50) := by
  refine ⟨fun h => ?_, fun h1 h2 => ?_, ?_, fun h => ?_, fun h1 h2 => ?_, ?_⟩
  · have hc : ¬(1 ≤ x ∧ x ≤ 200) := by omega
    simp [list_forecasts, fastapiIntParam, hc]
  · have hc : (1 ≤ x ∧ x ≤ 200) := ⟨h1, h2⟩
    exact ⟨(get_documents docs (forecastFilter m v) x.toNat).map renameId,
      by simp [list_forecasts, fastapiIntParam, hc]⟩
  · have hc : ((1 : ℤ) ≤ 20 ∧ (20 : ℤ) ≤ 200) := by omega
    simp [list_forecasts, fastapiIntParam, hc]
  · have hc : ¬(1 ≤ x ∧ x ≤ 500) := by omega
    simp [list_alerts, fastapiIntParam, hc]
  · have hc : (1 ≤ x ∧ x ≤ 500) := ⟨h1, h2⟩
    exact ⟨(get_documents docs (alertFilter a) x.toNat).map renameId,
      by simp [list_alerts, fastapiIntParam, hc]⟩
  · have hc : ((1 : ℤ) ≤ 50 ∧ (50 : ℤ) ≤ 500) := by omega
    simp [list_alerts, fastapiIntParam, hc]

theorem c2_witness :
    list_forecasts [] none none (some 500) =
      .error (422, "value out of range") ∧
    (∃ res, list_forecasts [] none none (some 100) = .ok res) ∧
    list_alerts [] none (some 1000) = .error (422, "value out of range") ∧
    (∃ res, list_alerts [] none (some 500) = .ok res) ∧
    list_forecasts [] none none none = list_forecasts [] none none (some 20) ∧
    list_alerts [] none none = list_alerts [] none (some 50) :=
  ⟨(c2_limit_validation [] none none none 500).1 (Or.inr (by norm_num)),
   (c2_limit_validation [] none none none 100).2.1 (by norm_num) (by norm_num),
   (c2_limit_validation [] none none none 1000).2.2.2.1 (Or.inr (by norm_num)),
   (c2_limit_validation [] none none none 500).2.2.2.2.1 (by norm_num) (by norm_num),
   (c2_limit_validation [] none none none 0).2.2.1,
   (c2_limit_validation [] none none none 0).2.2.2.2.2⟩

/-- C3: the code is wrong here.  On a well-formed identifier with no match,
`get_forecast` raises `HTTPException(404, "Forecast not found")` inside the
`try` block; the blanket `except Exception` catches it and re-raises it as a
500, so the endpoint returns a server error, not a 404.  Evaluated at the
failing input: an empty store and the well-formed id
`"0123456789abcdef01234567"`. -/
theorem c3_miss_returns_500 :
    get_forecast [] "0123456789abcdef01234567" =
      .error (500, "404: Forecast not found") ∧
    (500 : ℕ) ≠ 404 := by
  constructor
  · have hvalid : parseObjectId "0123456789abcdef01234567" =
        some "0123456789abcdef01234567" := by decide
    simp [get_forecast, hvalid, get_documents]
  · decide

/-- C7: `GET /api/alerts?active=b` returns only records whose active flag is
`b` (for either boolean), and omitting the parameter applies the empty
filter, returning the stored records regardless of their active flag, up to
the limit. -/
theorem c7_alerts_active_filter (docs : List Doc) (lim : Option ℤ) (b : Bool) :
    (∀ res, list_alerts docs (some b) lim = .ok res →
      ∀ d ∈ res, getField d "active" = some (.bool b)) ∧
    (∀ x : ℤ, 1 ≤ x → x ≤ 500 →
      list_alerts docs none (some x) = .ok ((docs.take x.toNat).map renameId)) ∧
    list_alerts docs none none = .ok ((docs.take 50).map renameId) := by
  refine ⟨fun res hres d hd => ?_, fun x h1 h2 => ?_, ?_⟩
  · cases hparse : fastapiIntParam 50 1 500 lim with
    | error e => simp [list_alerts, hparse] at hres
    | ok l =>
      rw [list_alerts, hparse] at hres
      have hres' : (get_documents docs (alertFilter (some b)) l.toNat).map
          renameId = res := by
        simpa using hres
      subst hres'
      obtain ⟨d₀, hd₀, hren⟩ := List.mem_map.mp hd
      obtain ⟨_, hmatch⟩ := mem_get_documents hd₀
      have hone : (match getField d₀ "active" with
          | some w => Value.beq w (Value.bool b)
          | none => false) = true := by
        simpa [matchesFilter, alertFilter] using hmatch
      cases hget : getField d₀ "active" with
      | none => rw [hget] at hone; simp at hone
      | some w =>
        rw [hget] at hone
        have hw : w = Value.bool b := (Value.beq_bool_iff w b).mp hone
        subst hren
        rw [renameId_getField_other d₀ "active" (by decide) (by decide), hget, hw]
  · have hc : (1 ≤ x ∧ x ≤ 500) := ⟨h1, h2⟩
    simp [list_alerts, fastapiIntParam, hc, alertFilter, get_documents,
      matchesFilter]
  · simp [list_alerts, fastapiIntParam, alertFilter, get_documents,
      matchesFilter]

theorem c7_witness :
    (∀ d ∈ [[("active", Value.bool true)]],
      getField d "active" = some (Value.bool true)) ∧
    list_alerts [[("active", Value.bool true)], [("active", Value.bool false)]]
        none none =
      .ok [[("active", Value.bool true)], [("active", Value.bool false)]] := by
  constructor
  · refine (c7_alerts_active_filter [[("active", Value.bool true)],
      [("active", Value.bool false)]] (some 5) true).1
      [[("active", Value.bool true)]] ?_
    have h5 : fastapiIntParam 50 1 500 (some 5) = .ok 5 := by
      norm_num [fastapiIntParam]
    rw [list_alerts, h5]
    simp [get_documents, alertFilter, matchesFilter, getField_cons,
      Value.beq, renameId]
  · have h := (c7_alerts_active_filter [[("active", Value.bool true)],
      [("active", Value.bool false)]] none true).2.2
    rw [h]
    simp [renameId, getField_cons]

/-- C4: inserting a valid Forecast payload via `POST /api/forecasts` and then
fetching `GET /api/forecasts/{id}` with the returned identifier yields the
serialised input with one added string field `"id"` and no `"_id"` field;
every other field is unchanged.  `oid` is the identifier the store assigns
(fresh and well-formed). -/
theorem c4_insert_then_get (docs : List Doc) (p : ForecastPayload)
    (oid : String)
    (hval : validateForecast p = true)
    (hoid : isValidObjectIdString oid = true)
    (hfresh : ∀ d ∈ docs, getField d "_id" ≠ some (Value.oid oid)) :
    (post_forecast docs p oid).1 = .ok oid ∧
    get_forecast (post_forecast docs p oid).2 oid =
      .ok (serializeForecast p ++ [("id", Value.str oid)]) ∧
    getField (serializeForecast p ++ [("id", Value.str oid)]) "_id" = none ∧
    getField (serializeForecast p ++ [("id", Value.str oid)]) "id" =
      some (Value.str oid) ∧
    ∀ k, k ≠ "id" →
      getField (serializeForecast p ++ [("id", Value.str oid)]) k =
        getField (serializeForecast p) k := by
  have hsid : getField (serializeForecast p) "_id" = none := by
    simp [serializeForecast, getField_cons]
  have hsid2 : getField (serializeForecast p) "id" = none := by
    simp [serializeForecast, getField_cons]
  have hstore : (post_forecast docs p oid).2 =
      docs ++ [("_id", Value.oid oid) :: serializeForecast p] := by
    simp [post_forecast, hval, create_document]
  have hresp : (post_forecast docs p oid).1 = .ok oid := by
    simp [post_forecast, hval, create_document]
  have hparse : parseObjectId oid = some oid := by
    simp [parseObjectId, hoid]
  have hfilter_docs :
      docs.filter (fun d => matchesFilter [("_id", Value.oid oid)] d) = [] := by
    rw [List.filter_eq_nil_iff]
    intro d hd hmatch
    have h1 : (match getField d "_id" with
        | some w => Value.beq w (Value.oid oid)
        | none => false) = true := by
      simpa [matchesFilter] using hmatch
    cases hget : getField d "_id" with
    | none => rw [hget] at h1; simp at h1
    | some w =>
      rw [hget] at h1
      exact hfresh d hd (by rw [hget, (Value.beq_oid_iff w oid).mp h1])
  have hmatch_new : matchesFilter [("_id", Value.oid oid)]
      (("_id", Value.oid oid) :: serializeForecast p) = true := by
    simp [matchesFilter, getField_cons, Value.beq]
  have hquery : get_documents
      (docs ++ [("_id", Value.oid oid) :: serializeForecast p])
      [("_id", Value.oid oid)] 1 =
      [("_id", Value.oid oid) :: serializeForecast p] := by
    unfold get_documents
    rw [List.filter_append, hfilter_docs]
    simp [hmatch_new]
  have herase : eraseKey (("_id", Value.oid oid) :: serializeForecast p)
      "_id" = serializeForecast p := by
    rw [show eraseKey (("_id", Value.oid oid) :: serializeForecast p) "_id" =
          eraseKey (serializeForecast p) "_id" from by simp [eraseKey],
        eraseKey_keeps _ _ hsid]
  have hset : setKey (serializeForecast p) "id" (Value.str oid) =
      serializeForecast p ++ [("id", Value.str oid)] :=
    setKey_eq_append _ _ _ hsid2
  refine ⟨hresp, ?_, ?_, ?_, ?_⟩
  · rw [hstore]
    simp [get_forecast, hparse, hquery, getField_cons, herase, Value.vstr,
      hset]
  · rw [getField_append, hsid]
    simp [getField_cons]
  · rw [getField_append, hsid2]
    simp [getField_cons]
  · intro k hk
    rw [getField_append]
    cases hg : getField (serializeForecast p) k with
    | some v => rfl
    | none => simp [getField_cons, Ne.symm hk]

/-- A valid Forecast payload used as a concrete witness input. -/
def sampleForecast : ForecastPayload :=
  { model := "WRF"
    init_time := "2024-01-01T00:00:00Z"
    lead_hours := 24
    var := "t2m"
    bbox := [0, 0, 1, 1]
    grid_res_km := 10
    times := ["2024-01-01T00:00:00Z"]
    grid := [] }

/-- A canonical well-formed ObjectId string. -/
def sampleOid : String := "0123456789abcdef01234567"

theorem c4_witness :
    (post_forecast [] sampleForecast sampleOid).1 = .ok sampleOid ∧
    get_forecast (post_forecast [] sampleForecast sampleOid).2 sampleOid =
      .ok (serializeForecast sampleForecast ++
        [("id", Value.str sampleOid)]) ∧
    getField (serializeForecast sampleForecast ++
      [("id", Value.str sampleOid)]) "_id" = none :=
  have h := c4_insert_then_get [] sampleForecast sampleOid (by decide)
    (by decide) (by simp)
  ⟨h.1, h.2.1, h.2.2.1⟩

/-- The invariant C6 asserts of the stored forecast collection: every stored
document's `"bbox"` field is an array of exactly 4 numbers. -/
def bboxInvariant (docs : List Doc) : Prop :=
  ∀ d ∈ docs, ∀ vs, getField d "bbox" = some (.arr vs) →
    vs.length = 4 ∧ ∀ v ∈ vs, ∃ q : ℚ, v = .num q

/-- C6: a Forecast payload whose `bbox` does not have exactly 4 elements
fails validation (`min_items=4, max_items=4`), the request is rejected with
a 422 before the handler runs, and the store is unchanged; and any request
— valid or not — preserves the invariant that every stored forecast has a
bbox of exactly 4 floats. -/
theorem c6_bbox_validation (docs : List Doc) (p : ForecastPayload)
    (oid : String) :
    (p.bbox.length ≠ 4 →
      validateForecast p = false ∧
      (post_forecast docs p oid).1 = .error (422, "validation error") ∧
      (post_forecast docs p oid).2 = docs) ∧
    (bboxInvariant docs → bboxInvariant (post_forecast docs p oid).2) := by
  constructor
  · intro h
    have he : (p.bbox.length == 4) = false := by simp [h]
    have hv : validateForecast p = false := by
      rw [validateForecast, he, Bool.and_false]
    exact ⟨hv, by simp [post_forecast, hv], by simp [post_forecast, hv]⟩
  · intro hinv
    by_cases hv : validateForecast p = true
    · have hlen : p.bbox.length = 4 := by
        have h1 := hv
        rw [validateForecast] at h1
        exact eq_of_beq ((Bool.and_eq_true _ _).mp h1).2
      rw [show (post_forecast docs p oid).2 =
            docs ++ [("_id", Value.oid oid) :: serializeForecast p] from by
          simp [post_forecast, hv, create_document]]
      intro d hd vs hget
      rcases List.mem_append.mp hd with hd | hd
      · exact hinv d hd vs hget
      · have hd' : d = ("_id", Value.oid oid) :: serializeForecast p := by
          simpa using hd
        subst hd'
        have hb : getField (("_id", Value.oid oid) :: serializeForecast p)
            "bbox" = some (.arr (p.bbox.map .num)) := by
          simp [getField_cons, serializeForecast]
        rw [hb] at hget
        obtain rfl : p.bbox.map Value.num = vs :=
          Value.arr.inj (Option.some.inj hget)
        refine ⟨by simp [hlen], fun v hv' => ?_⟩
        obtain ⟨q, _, rfl⟩ := List.mem_map.mp hv'
        exact ⟨q, rfl⟩
    · have hv' : validateForecast p = false := by
        cases hb : validateForecast p with
        | false => rfl
        | true => exact absurd hb hv
      rw [show (post_forecast docs p oid).2 = docs from by
        simp [post_forecast, hv']]
      exact hinv

theorem c6_witness :
    validateForecast { sampleForecast with bbox := [0, 0, 1] } = false ∧
    (post_forecast [] { sampleForecast with bbox := [0, 0, 1] }
      sampleOid).1 = .error (422, "validation error") ∧
    (post_forecast [] { sampleForecast with bbox := [0, 0, 1] }
      sampleOid).2 = [] :=
  (c6_bbox_validation [] { sampleForecast with bbox := [0, 0, 1] }
    sampleOid).1 (by decide)

/-- C8: the meteogram response's `times` list has exactly 49 entries, and
entry `i` is the ISO-8601 formatting (`iso`) of the current UTC time
truncated to the hour (`now - now % usPerHour`) plus `i` hours, with a
literal `"Z"` appended, for `i` from 0 through 48. -/
theorem c8_meteogram_times (iso : ℕ → String) (now : ℕ)
    (req : MeteogramRequest) :
    (generateMeteogram iso now req).times.length = 49 ∧
    (generateMeteogram iso now req).times =
      (List.range 49).map
        (fun i => iso ((now - now % usPerHour) + i * usPerHour) ++ "Z") ∧
    ∀ i, i < 49 → (generateMeteogram iso now req).times.getD i "" =
      iso ((now - now % usPerHour) + i * usPerHour) ++ "Z" := by
  refine ⟨by simp [generateMeteogram], rfl, fun i hi => ?_⟩
  show ((List.range 49).map
    (fun i => iso ((now - now % usPerHour) + i * usPerHour) ++ "Z")).getD
      i "" = _
  rw [getD_map_range _ _ _ _ hi]

theorem c8_witness :
    (generateMeteogram (fun n => toString n) 0
      ⟨10, 20, MetVar.t2m, none⟩).times.getD 3 "" =
      toString ((0 - 0 % usPerHour) + 3 * usPerHour) ++ "Z" :=
  (c8_meteogram_times (fun n => toString n) 0
    ⟨10, 20, MetVar.t2m, none⟩).2.2 3 (by norm_num)

/-- C5 as stated is false on the code: the response also echoes the
request's `lat`, `lon` and `variable` fields, so two requests differing in
`lat` produce responses that differ even though their value sequences, units
and timestamp sequences are identical — refuted at the concrete inputs
`lat=10` and `lat=11`. -/
theorem c5_counterexample :
    (generateMeteogram (fun _ => "") 0 ⟨10, 20, MetVar.t2m, none⟩).values =
      (generateMeteogram (fun _ => "") 0 ⟨11, 20, MetVar.t2m, none⟩).values ∧
    (generateMeteogram (fun _ => "") 0 ⟨10, 20, MetVar.t2m, none⟩).units =
      (generateMeteogram (fun _ => "") 0 ⟨11, 20, MetVar.t2m, none⟩).units ∧
    (generateMeteogram (fun _ => "") 0 ⟨10, 20, MetVar.t2m, none⟩).times =
      (generateMeteogram (fun _ => "") 0 ⟨11, 20, MetVar.t2m, none⟩).times ∧
    (generateMeteogram (fun _ => "") 0 ⟨10, 20, MetVar.t2m, none⟩) ≠
      (generateMeteogram (fun _ => "") 0 ⟨11, 20, MetVar.t2m, none⟩) := by
  refine ⟨rfl, rfl, rfl, fun hc => ?_⟩
  have h10 : (generateMeteogram (fun _ => "") 0
      ⟨10, 20, MetVar.t2m, none⟩).lat = 10 := rfl
  have h11 : (generateMeteogram (fun _ => "") 0
      ⟨11, 20, MetVar.t2m, none⟩).lat = 11 := rfl
  have hq : (10 : ℚ) = 11 := by rw [← h10, ← h11, hc]
  norm_num at hq

/-- C5 amended: the 49 returned values depend only on the index — every
meteogram response carries the same fixed value sequence, whatever the
request fields, the `iso` formatting or the invocation time; the units
depend only on the variable; and the `lat`/`lon`/`variable` response fields
merely echo the request (so they, the units, and the timestamps are the only
parts that can differ between two responses). -/
theorem c5_values_independent (iso iso' : ℕ → String) (now now' : ℕ)
    (req req' : MeteogramRequest) :
    (generateMeteogram iso now req).values =
      (List.range 49).map meteogramValue ∧
    (generateMeteogram iso now req).values =
      (generateMeteogram iso' now' req').values ∧
    (req.var = req'.var →
      (generateMeteogram iso now req).units =
        (generateMeteogram iso' now' req').units) ∧
    (generateMeteogram iso now req).lat = req.lat ∧
    (generateMeteogram iso now req).lon = req.lon ∧
    (generateMeteogram iso now req).var = req.var := by
  refine ⟨rfl, rfl, fun h => ?_, rfl, rfl, rfl⟩
  show (if req.var = MetVar.t2m then "°C" else "units") =
    (if req'.var = MetVar.t2m then "°C" else "units")
  rw [h]

theorem c5_witness :
    (generateMeteogram (fun _ => "") 0
      ⟨10, 20, MetVar.precip, none⟩).units =
      (generateMeteogram (fun n => toString n) 5
        ⟨11, 21, MetVar.precip, some "x"⟩).units :=
  (c5_values_independent (fun _ => "") (fun n => toString n) 0 5
    ⟨10, 20, MetVar.precip, none⟩ ⟨11, 21, MetVar.precip, some "x"⟩).2.2.1 rfl

/-- C1: a meteogram response for variable `"t2m"` has exactly 49 timestamps
and 49 values, units `"°C"`, value `i` equal to
`round(15 + 10*sin(i/24*2*pi) + 1.5*sin(i*0.7), 2)` for every `i < 49`, and
in particular value 0 equal to `15.0`. -/
theorem c1_meteogram_t2m (iso : ℕ → String) (now : ℕ)
    (req : MeteogramRequest) (h : req.var = MetVar.t2m) :
    (generateMeteogram iso now req).times.length = 49 ∧
    (generateMeteogram iso now req).values.length = 49 ∧
    (generateMeteogram iso now req).units = "°C" ∧
    (∀ i, i < 49 → (generateMeteogram iso now req).values.getD i 0 =
      round2 (15 + 10 * Real.sin ((i : ℝ) / 24 * 2 * Real.pi) +
        1.5 * Real.sin ((i : ℝ) * 0.7))) ∧
    (generateMeteogram iso now req).values.getD 0 0 = 15 := by
  have hval : ∀ i, i < 49 →
      (generateMeteogram iso now req).values.getD i 0 = meteogramValue i := by
    intro i hi
    show ((List.range 49).map meteogramValue).getD i 0 = _
    rw [getD_map_range _ _ _ _ hi]
  refine ⟨by simp [generateMeteogram], by simp [generateMeteogram],
    by simp [generateMeteogram, h], fun i hi => ?_, ?_⟩
  · rw [hval i hi]
    rfl
  · rw [hval 0 (by norm_num)]
    unfold meteogramValue
    rw [show ((0 : ℕ) : ℝ) / 24 * 2 * Real.pi = 0 from by norm_num,
        show ((0 : ℕ) : ℝ) * 0.7 = 0 from by norm_num,
        Real.sin_zero,
        show (15 + 10 * (0 : ℝ)) + 1.5 * 0 = 15 from by norm_num]
    unfold round2
    rw [show (15 : ℝ) * 100 = ((1500 : ℤ) : ℝ) from by norm_num,
        round_intCast]
    norm_num

theorem c1_witness :
    (generateMeteogram (fun _ => "") 0
      ⟨10, 20, MetVar.t2m, none⟩).values.length = 49 ∧
    (generateMeteogram (fun _ => "") 0
      ⟨10, 20, MetVar.t2m, none⟩).units = "°C" ∧
    (generateMeteogram (fun _ => "") 0
      ⟨10, 20, MetVar.t2m, none⟩).values.getD 0 0 = 15 ∧
    (generateMeteogram (fun _ => "") 0
      ⟨10, 20, MetVar.t2m, none⟩).values.getD 3 0 =
      round2 (15 + 10 * Real.sin (((3 : ℕ) : ℝ) / 24 * 2 * Real.pi) +
        1.5 * Real.sin (((3 : ℕ) : ℝ) * 0.7)) :=
  have h := c1_meteogram_t2m (fun _ => "") 0 ⟨10, 20, MetVar.t2m, none⟩ rfl
  ⟨h.2.1, h.2.2.1, h.2.2.2.2, h.2.2.2.1 3 (by norm_num)⟩
